import Mathlib

/-!
Verification development for the tender-automation repository.

The definitions below are a shallow embedding of the client logic in
src/unnamed/part_011 (the tender intake page), src/frontend/src/lib/tenderApi.ts
(the shared API client) and src/frontend/src/app/valid/page.tsx (the review
page), together with a spec-modelled backend state machine for the parts of the
backend whose code is not present in the repository snapshot (only service
READMEs are).
-/

namespace TenderAutomation

/-- Session status values, from TenderStatus in tenderApi.ts. -/
inductive TenderStatus
  | uploading
  | uploaded
  | parsing
  | parsed
  | failed
deriving DecidableEq, Repr

/-- RAG ingestion sub-status values, as used by part_011
(session.ragIngestion.status). -/
inductive RagIngestionStatus
  | pending
  | running
  | done
  | failed
deriving DecidableEq, Repr

/-- The ragIngestion sub-object of a session snapshot, as read by part_011. -/
structure RagIngestion where
  status : RagIngestionStatus
  lastError : Option String
deriving DecidableEq, Repr

/-- ParseMetadata from tenderApi.ts (fields the claims mention). -/
structure ParseMetadata where
  outputUri : Option String
  startedAt : Option String
  completedAt : Option String
  error : Option String
deriving DecidableEq, Repr

/-- One RAG corpus artifact reference, as rendered by part_011
(session.ragFiles entries). -/
structure RagFileRef where
  ragFileName : String
  sourceUri : Option String
deriving DecidableEq, Repr

/-- The session snapshot consumed by the current tender page. Field set follows
TenderSessionResponse in tenderApi.ts extended with the ragIngestion and
ragFiles fields that part_011 reads from the same response. -/
structure TenderSessionResponse where
  tenderId : String
  status : TenderStatus
  ragIngestion : RagIngestion
  parse : ParseMetadata
  ragFiles : List RagFileRef
deriving DecidableEq, Repr

/-- Completion status sent to the completion callback
(UploadCompletionRequest.status in tenderApi.ts). -/
inductive CompletionStatus
  | uploaded
  | failed
deriving DecidableEq, Repr

/-- Network requests the client can issue; one constructor per tenderApi.ts
call the embedded handlers perform. -/
inductive ApiEffect
  | triggerParsing (tenderId : String)
  | retryRagIngestion (tenderId : String)
  | refreshSession
  | initUpload (filename : String) (sizeBytes : Nat) (contentType : String)
  | putSignedUrl (uploadUrl : String)
  | completeUpload (fileId : String) (status : CompletionStatus)
      (error : Option String)
  | getPlaybookResults (tenderId : String)
deriving DecidableEq, Repr

/-- The slice of TenderPage component state (part_011) that the parsing
handlers read and write. -/
structure PageState where
  tenderId : Option String
  session : Option TenderSessionResponse
  errorMessage : Option String
  parsingRequested : Bool
  isProcessing : Bool
deriving DecidableEq, Repr

/-- The error message requestParsing surfaces when ingestion is not done
(part_011 lines 180 to 183). -/
def ingestionNotDoneMessage : String :=
  "RAG ingestion has not completed yet. Wait for ingestion to finish or retry it before running the playbook."

/-- startParsing from part_011 lines 164 to 176: returns early when tenderId is
null, otherwise marks processing and issues the process request. -/
def startParsing (st : PageState) : PageState × List ApiEffect :=
  match st.tenderId with
  | none => (st, [])
  | some tid => ({ st with isProcessing := true }, [ApiEffect.triggerParsing tid])

/-- requestParsing from part_011 lines 178 to 189: if there is no session or
ragIngestion.status differs from done, it sets the error message and returns
without any request; otherwise it records the request and starts parsing. -/
def requestParsing (st : PageState) : PageState × List ApiEffect :=
  match st.session with
  | some s =>
      if s.ragIngestion.status = RagIngestionStatus.done then
        startParsing { st with parsingRequested := true }
      else
        ({ st with errorMessage := some ingestionNotDoneMessage }, [])
  | none => ({ st with errorMessage := some ingestionNotDoneMessage }, [])

/-- shouldPoll from the part_011 effect at lines 194 to 198: the session is
non-terminal while its status is parsing or uploading, or ingestion is pending
or running. -/
def shouldPoll (s : TenderSessionResponse) : Bool :=
  s.status = TenderStatus.parsing || s.status = TenderStatus.uploading ||
    s.ragIngestion.status = RagIngestionStatus.pending ||
    s.ragIngestion.status = RagIngestionStatus.running

/-- The polling cadence in milliseconds used by the part_011 effect
(setInterval period, line 203). -/
def pollIntervalMs : Nat := 5000

/-- What the session effect hook decides to do for one snapshot. -/
inductive HookAction
  | noop
  | schedulePoll (intervalMs : Nat)
  | autoRequestParsing
deriving DecidableEq, Repr

/-- The session effect from part_011 lines 191 to 222: does nothing without a
tender id and session; schedules a 5000 ms poll while the session is
non-terminal; otherwise auto-requests parsing exactly when the session is
uploaded, ingestion is done, and no parsing request is pending or running. -/
def sessionEffectAction (st : PageState) : HookAction :=
  match st.tenderId, st.session with
  | some _, some s =>
      if shouldPoll s then HookAction.schedulePoll pollIntervalMs
      else if s.status = TenderStatus.uploaded &&
          s.ragIngestion.status = RagIngestionStatus.done &&
          !st.parsingRequested && !st.isProcessing then
        HookAction.autoRequestParsing
      else HookAction.noop
  | _, _ => HookAction.noop

/-- The ingestion status the page displays for a snapshot, from part_011 line
400: session?.ragIngestion?.status ?? "pending". -/
def ingestionStatusOf (session : Option TenderSessionResponse) : RagIngestionStatus :=
  match session with
  | some s => s.ragIngestion.status
  | none => RagIngestionStatus.pending

/-- Whether the retry-ingestion button is rendered, from part_011 lines 648 to
657: the button block is emitted exactly when ingestionStatus is failed. -/
def retryIngestionRendered (session : Option TenderSessionResponse) : Bool :=
  ingestionStatusOf session = RagIngestionStatus.failed

/-- handleRetryIngestion from part_011 lines 336 to 348: returns early without
a tender id; otherwise issues one retryRagIngestion request and, when that
request succeeds, a session refresh (on failure the catch branch records the
error message instead). -/
def handleRetryIngestion (tenderId : Option String) (retrySucceeds : Bool) :
    List ApiEffect :=
  match tenderId with
  | none => []
  | some tid =>
      ApiEffect.retryRagIngestion tid ::
        (if retrySucceeds then [ApiEffect.refreshSession] else [])

/-- JavaScript truthiness of the optional outputUri string, as tested by the
review page guard (valid/page.tsx line 144): an absent value and the empty
string are falsy. -/
def outputUriIsSet (parse : ParseMetadata) : Bool :=
  match parse.outputUri with
  | some s => s ≠ ""
  | none => false

/-- What the playbook-loading effect decides to do for one snapshot. -/
inductive PlaybookLoadAction
  | fetchResults (tenderId : String)
  | clearResults
  | noop
deriving DecidableEq, Repr

/-- The loadPlaybook effect from valid/page.tsx lines 140 to 149: nothing
without a tender id; with one, fetch the playbook results when
parse.outputUri is truthy and clear the held results otherwise (a missing
snapshot also takes the clearing branch). -/
def loadPlaybookEffect (tenderId : Option String)
    (tenderStatus : Option TenderSessionResponse) : PlaybookLoadAction :=
  match tenderId with
  | none => PlaybookLoadAction.noop
  | some tid =>
      match tenderStatus with
      | some st =>
          if outputUriIsSet st.parse then PlaybookLoadAction.fetchResults tid
          else PlaybookLoadAction.clearResults
      | none => PlaybookLoadAction.clearResults

/-- One citation attached to an answer (RagCitation in tenderApi.ts; its
contents are rendered opaquely). -/
structure RagCitation where
  sources : List String
deriving DecidableEq, Repr

/-- RagAnswer from tenderApi.ts. -/
structure RagAnswer where
  text : String
  citations : List RagCitation
deriving DecidableEq, Repr

/-- One playbook result entry (PlaybookResult in tenderApi.ts); document
summaries are kept as opaque strings. -/
structure PlaybookResult where
  questionId : String
  question : String
  answers : List RagAnswer
  documents : List String
deriving DecidableEq, Repr

/-- The content rendered inside one playbook answer block. -/
inductive AnswerBlock
  | answerList (items : List RagAnswer)
  | fallbackText (text : String)
deriving DecidableEq, Repr

/-- One rendered playbook block on the review page. -/
structure RenderedResult where
  questionId : String
  question : String
  block : AnswerBlock
deriving DecidableEq, Repr

/-- The fallback text the review page shows for an entry without answers
(valid/page.tsx lines 469 to 473). -/
def noAnswerFallback : String := "No answer returned for this prompt."

/-- The playbook answers section of valid/page.tsx lines 434 to 473: one block
per result in results order; a block renders the answer list when
result.answers.length is truthy and the fallback text otherwise. -/
def renderPlaybookResults (results : List PlaybookResult) : List RenderedResult :=
  results.map fun r =>
    { questionId := r.questionId
      question := r.question
      block :=
        if r.answers.length ≠ 0 then AnswerBlock.answerList r.answers
        else AnswerBlock.fallbackText noAnswerFallback }

/-- The environment getBaseUrl reads (tenderApi.ts lines 61 to 66): the two
NEXT_PUBLIC variables and, when a window exists, its location origin. -/
structure ClientEnv where
  tenderBackendUrl : Option String
  apiUrl : Option String
  windowOrigin : Option String
deriving DecidableEq, Repr

/-- The candidate filter of tenderApi.ts line 67: the value is a string whose
trimmed length is positive. -/
def isNonEmptyCandidate : Option String → Bool
  | some s => 0 < s.trim.length
  | none => false

/-- The replacement of the trailing-slash regex in tenderApi.ts line 73:
remove every trailing slash character. -/
def stripTrailingSlashes (s : String) : String :=
  ⟨(s.data.reverse.dropWhile (fun c => c = Char.ofNat 47)).reverse⟩

/-- The configuration error message thrown by getBaseUrl
(tenderApi.ts lines 69 to 71). -/
def baseUrlNotConfiguredMessage : String :=
  "Backend base URL is not configured. Set NEXT_PUBLIC_TENDER_BACKEND_URL or NEXT_PUBLIC_API_URL."

/-- The ordered candidate list of tenderApi.ts lines 62 to 66. -/
def baseUrlCandidates (env : ClientEnv) : List (Option String) :=
  [env.tenderBackendUrl, env.apiUrl, env.windowOrigin]

/-- getBaseUrl from tenderApi.ts lines 61 to 74: the first candidate that is a
non-blank string, with trailing slashes stripped; a thrown configuration error
when no candidate qualifies. -/
def getBaseUrl (env : ClientEnv) : Except String String :=
  match (baseUrlCandidates env).find? isNonEmptyCandidate with
  | some (some s) => Except.ok (stripTrailingSlashes s)
  | some none => Except.error baseUrlNotConfiguredMessage
  | none => Except.error baseUrlNotConfiguredMessage

/-- Modelled from the spec: the design note in section 9 treats the resolved
base URL as a lazily-initialized read-only value scoped to the process. One
call with an optional cache: a hit returns the cached value, a miss computes
getBaseUrl and caches a successful result. -/
def getBaseUrlCachedStep (env : ClientEnv) (cache : Option String) :
    Except String String × Option String :=
  match cache with
  | some v => (Except.ok v, some v)
  | none =>
      match getBaseUrl env with
      | Except.ok v => (Except.ok v, some v)
      | Except.error e => (Except.error e, none)

/-- The results of n per-request recomputations of the base URL. -/
def resolvePerRequest (env : ClientEnv) (n : Nat) : List (Except String String) :=
  List.replicate n (getBaseUrl env)

/-- The results of n calls through the cache, threading the cache state. -/
def resolveCachedAux (env : ClientEnv) : Nat → Option String →
    List (Except String String)
  | 0, _ => []
  | n + 1, cache =>
      let step := getBaseUrlCachedStep env cache
      step.1 :: resolveCachedAux env n step.2

/-- The results of n calls through an initially empty cache. -/
def resolveCached (env : ClientEnv) (n : Nat) : List (Except String String) :=
  resolveCachedAux env n none

/-- The parsed JSON body of a response, reduced to the one field the shared
request helper inspects (its detail property, when it is a string). -/
structure ResponseBody where
  detail : Option String
deriving DecidableEq, Repr

/-- An HTTP response as the shared request helper observes it: the ok flag,
the status code, and the result of attempting to parse the body as JSON
(none when parsing throws). -/
structure HttpResponse where
  ok : Bool
  status : Nat
  body : Option ResponseBody
deriving DecidableEq, Repr

/-- The default failure message of tenderApi.ts line 86. -/
def requestFailedMessage (status : Nat) : String :=
  "Request failed with status " ++ toString status

/-- The marker for the exception response.json() raises on an ok, non-204
response whose body is not valid JSON (tenderApi.ts line 100). -/
def jsonSyntaxErrorMessage : String := "Unexpected end of JSON input"

/-- The shared request helper, tenderApi.ts lines 76 to 101: a non-ok response
throws an Error carrying the body detail field when present and the default
message otherwise; an ok 204 response resolves with undefined; any other ok
response resolves with its parsed JSON body. -/
def request (resp : HttpResponse) : Except String (Option ResponseBody) :=
  if resp.ok = false then
    Except.error
      (match resp.body with
        | some b => b.detail.getD (requestFailedMessage resp.status)
        | none => requestFailedMessage resp.status)
  else if resp.status = 204 then Except.ok none
  else
    match resp.body with
    | some b => Except.ok (some b)
    | none => Except.error jsonSyntaxErrorMessage

/-- UploadLimits from tenderApi.ts (the fields part_011 reads). -/
structure UploadLimits where
  maxFileSizeBytes : Option Nat
  allowedMimeTypes : Option (List String)
deriving DecidableEq, Repr

/-- The default allowed MIME types of part_011 lines 20 to 23. -/
def DEFAULT_ALLOWED_TYPES : List String :=
  ["application/pdf",
   "application/vnd.openxmlformats-officedocument.wordprocessingml.document"]

/-- allowedMimeTypes from part_011 lines 101 to 109: the backend list when it
is present and non-empty, the defaults otherwise. -/
def allowedMimeTypes (uploadLimits : Option UploadLimits) : List String :=
  match uploadLimits with
  | some ul =>
      match ul.allowedMimeTypes with
      | some l => if 0 < l.length then l else DEFAULT_ALLOWED_TYPES
      | none => DEFAULT_ALLOWED_TYPES
  | none => DEFAULT_ALLOWED_TYPES

/-- maxSizeBytes from part_011 line 111: the backend limit or 5 MiB. -/
def maxSizeBytes (uploadLimits : Option UploadLimits) : Nat :=
  match uploadLimits with
  | some ul => ul.maxFileSizeBytes.getD (5 * 1024 * 1024)
  | none => 5 * 1024 * 1024

/-- A candidate File-object as handleUpload reads it: name, byte size and
MIME type. -/
structure CandidateFile where
  name : String
  size : Nat
  mimeType : String
deriving DecidableEq, Repr

/-- The upload-init response fields the handler uses (UploadInitResponse in
tenderApi.ts). -/
structure UploadInitResponse where
  fileId : String
  uploadUrl : String
  storageUri : String
deriving DecidableEq, Repr

/-- The outcomes of the three awaited steps for one file: upload-init, the
signed-URL transfer, and the completion callback; each error carries the
thrown message. -/
structure FileOutcomes where
  init : Except String UploadInitResponse
  upload : Except String Unit
  complete : Except String Unit
deriving Repr

/-- Local file status values (LocalFileStatus in part_011). -/
inductive LocalFileStatus
  | pending
  | uploading
  | uploaded
  | failed
deriving DecidableEq, Repr

/-- Which error message is stored on a local record: the two client-side
validation messages of part_011 lines 259 to 261 (whose wording interpolates
the formatted size limit and type labels) or the thrown request message. -/
inductive LocalFileError
  | sizeLimitExceeded
  | unsupportedType
  | requestFailed (message : String)
deriving DecidableEq, Repr

/-- The final state of one local upload list entry after handleUpload is done
with its file. -/
structure LocalFileState where
  name : String
  status : LocalFileStatus
  progress : Nat
  error : Option LocalFileError
deriving DecidableEq, Repr

/-- The contentType sent by upload-init, part_011 line 282: the file type or
the octet-stream fallback when it is empty. -/
def initContentType (mimeType : String) : String :=
  if mimeType = "" then "application/octet-stream" else mimeType

/-- The loop body of handleUpload for one file, part_011 lines 246 to 319.
A file failing the size or type check is recorded as failed with the matching
validation message and the loop continues without issuing any request. A valid
file issues upload-init; on its success the signed-URL transfer; on its success
the uploaded completion callback. Any thrown step marks the local record failed
with the message and, when upload-init had succeeded, reports the failure
through the completion callback with status failed and that message (a failure
of this follow-up call is ignored). Every path that entered the try block ends
with a session refresh. -/
def processFile (allowed : List String) (maxSize : Nat)
    (file : CandidateFile) (out : FileOutcomes) :
    LocalFileState × List ApiEffect :=
  let isSizeValid := file.size ≤ maxSize
  let isTypeValid := allowed.contains file.mimeType
  if ¬ (isSizeValid ∧ isTypeValid) then
    ({ name := file.name, status := LocalFileStatus.failed, progress := 0
       error := some (if ¬ isSizeValid then LocalFileError.sizeLimitExceeded
         else LocalFileError.unsupportedType) }, [])
  else
    let initEffect :=
      ApiEffect.initUpload file.name file.size (initContentType file.mimeType)
    match out.init with
    | Except.error msg =>
        ({ name := file.name, status := LocalFileStatus.failed, progress := 0
           error := some (LocalFileError.requestFailed msg) },
         [initEffect, ApiEffect.refreshSession])
    | Except.ok ir =>
        match out.upload with
        | Except.error msg =>
            ({ name := file.name, status := LocalFileStatus.failed, progress := 0
               error := some (LocalFileError.requestFailed msg) },
             [initEffect, ApiEffect.putSignedUrl ir.uploadUrl,
              ApiEffect.completeUpload ir.fileId CompletionStatus.failed (some msg),
              ApiEffect.refreshSession])
        | Except.ok _ =>
            match out.complete with
            | Except.error msg =>
                ({ name := file.name, status := LocalFileStatus.failed
                   progress := 0
                   error := some (LocalFileError.requestFailed msg) },
                 [initEffect, ApiEffect.putSignedUrl ir.uploadUrl,
                  ApiEffect.completeUpload ir.fileId CompletionStatus.uploaded none,
                  ApiEffect.completeUpload ir.fileId CompletionStatus.failed (some msg),
                  ApiEffect.refreshSession])
            | Except.ok _ =>
                ({ name := file.name, status := LocalFileStatus.uploaded
                   progress := 100, error := none },
                 [initEffect, ApiEffect.putSignedUrl ir.uploadUrl,
                  ApiEffect.completeUpload ir.fileId CompletionStatus.uploaded none,
                  ApiEffect.refreshSession])

/-- The whole handleUpload loop over a batch: each file appends its final local
record to the list and contributes its requests in order; prior records are
only ever updated in place by id, never removed. -/
def handleUploadBatch (allowed : List String) (maxSize : Nat)
    (files : List (CandidateFile × FileOutcomes))
    (locals : List LocalFileState) : List LocalFileState × List ApiEffect :=
  match files with
  | [] => (locals, [])
  | (f, out) :: rest =>
      let step := processFile allowed maxSize f out
      let restResult := handleUploadBatch allowed maxSize rest (locals ++ [step.1])
      (restResult.1, step.2 ++ restResult.2)

/-- One configured playbook question (spec section 3, PlaybookResult). -/
structure PlaybookQuestion where
  questionId : String
  question : String
deriving DecidableEq, Repr

/-- Modelled from the spec: the per-question outcome of the playbook loop
(spec section 4.1 steps 2 and 4); the backend playbook executor is not in the
repository snapshot (only the orchestrator README is). A question either
succeeds with answers and documents or fails with a generation error. -/
inductive QuestionOutcome
  | success (answers : List RagAnswer) (documents : List String)
  | generationError
deriving Repr

/-- Modelled from the spec: the result entry appended for one question (spec
section 4.1 steps 2 and 4): the answers on success, an empty answers list with
the question id on a generation error. -/
def playbookEntry (q : PlaybookQuestion) (o : QuestionOutcome) : PlaybookResult :=
  match o with
  | QuestionOutcome.success a d =>
      { questionId := q.questionId, question := q.question
        answers := a, documents := d }
  | QuestionOutcome.generationError =>
      { questionId := q.questionId, question := q.question
        answers := [], documents := [] }

/-- Modelled from the spec: one playbook run (spec section 4.1): iterate the
fixed ordered question list exactly once, in list order, producing one entry
per question whatever its outcome. -/
def runPlaybook (questions : List PlaybookQuestion)
    (oracle : String → QuestionOutcome) : List PlaybookResult :=
  questions.map fun q => playbookEntry q (oracle q.questionId)

/-- Modelled from the spec: the backend session fields the state machine owns
(spec sections 3 and 4.1); the artifact field stands for the JSON document the
outputUri key resolves to in the object store. -/
structure BackendSession where
  status : TenderStatus
  ragStatus : RagIngestionStatus
  outputUri : Option String
  artifact : Option (List PlaybookResult)
deriving Repr

/-- Modelled from the spec: the events driving the backend state machine
(spec section 4.1 transitions). -/
inductive BackendEvent
  | uploadsComplete
  | ingestionSucceeds
  | ingestionFails
  | retryIngestion
  | processStart
  | processFinishOk (uri : String) (oracle : String → QuestionOutcome)
  | processFinishFail

/-- Modelled from the spec: one transition of the backend state machine (spec
section 4.1); events whose precondition fails are rejected as no-ops. Entering
uploaded starts ingestion; processStart requires ingestion done and a status of
uploaded, failed or parsed; a finished run sets status parsed, writes the
artifact of exactly one entry per configured question and points outputUri at
it; a persistence failure sets status failed and leaves the previous artifact
pointer in place. -/
def backendStep (questions : List PlaybookQuestion) (st : BackendSession)
    (ev : BackendEvent) : BackendSession :=
  match ev with
  | BackendEvent.uploadsComplete =>
      if st.status = TenderStatus.uploading then
        { st with status := TenderStatus.uploaded
                  ragStatus := RagIngestionStatus.running }
      else st
  | BackendEvent.ingestionSucceeds =>
      if st.ragStatus = RagIngestionStatus.running then
        { st with ragStatus := RagIngestionStatus.done }
      else st
  | BackendEvent.ingestionFails =>
      if st.ragStatus = RagIngestionStatus.running then
        { st with ragStatus := RagIngestionStatus.failed }
      else st
  | BackendEvent.retryIngestion =>
      if st.ragStatus = RagIngestionStatus.failed then
        { st with ragStatus := RagIngestionStatus.running }
      else st
  | BackendEvent.processStart =>
      if st.ragStatus = RagIngestionStatus.done ∧
          (st.status = TenderStatus.uploaded ∨ st.status = TenderStatus.failed ∨
            st.status = TenderStatus.parsed) then
        { st with status := TenderStatus.parsing }
      else st
  | BackendEvent.processFinishOk uri oracle =>
      if st.status = TenderStatus.parsing then
        { st with status := TenderStatus.parsed
                  outputUri := some uri
                  artifact := some (runPlaybook questions oracle) }
      else st
  | BackendEvent.processFinishFail =>
      if st.status = TenderStatus.parsing then
        { st with status := TenderStatus.failed }
      else st

/-- Modelled from the spec: a fresh session starts uploading with ingestion
pending and no artifact (spec sections 3 and 4.1). -/
def initialBackendSession : BackendSession :=
  { status := TenderStatus.uploading, ragStatus := RagIngestionStatus.pending
    outputUri := none, artifact := none }

/-- The backend session reached by a list of events from the initial state. -/
def backendRun (questions : List PlaybookQuestion)
    (events : List BackendEvent) : BackendSession :=
  events.foldl (backendStep questions) initialBackendSession

/-- The parsed-session invariant of spec section 8: a parsed status comes with
a non-null outputUri resolving to a document with exactly one entry per
configured question. -/
def ParsedInvariant (questions : List PlaybookQuestion)
    (st : BackendSession) : Prop :=
  st.status = TenderStatus.parsed →
    ∃ uri doc, st.outputUri = some uri ∧ st.artifact = some doc ∧
      doc.length = questions.length

/-! ## Theorems -/

/-- Claim C1: the client issues the process command only when
ragIngestion.status is done: any triggerParsing request emitted by
requestParsing comes from a snapshot whose ingestion status is done, and
invoking requestParsing on a snapshot whose ingestion status is pending,
running or failed surfaces the error message, performs no request at all, and
leaves the session state (session, parsingRequested, isProcessing) unchanged. -/
theorem requestParsing_only_when_ingestion_done (st : PageState) :
    (∀ tid, ApiEffect.triggerParsing tid ∈ (requestParsing st).2 →
      ∃ s, st.session = some s ∧
        s.ragIngestion.status = RagIngestionStatus.done) ∧
    (∀ s, st.session = some s →
      s.ragIngestion.status ≠ RagIngestionStatus.done →
      (requestParsing st).2 = [] ∧
      (requestParsing st).1.errorMessage = some ingestionNotDoneMessage ∧
      (requestParsing st).1.session = st.session ∧
      (requestParsing st).1.parsingRequested = st.parsingRequested ∧
      (requestParsing st).1.isProcessing = st.isProcessing) := by
  constructor
  · intro tid hmem
    rcases hst : st.session with _ | s
    · simp [requestParsing, hst] at hmem
    · by_cases hd : s.ragIngestion.status = RagIngestionStatus.done
      · exact ⟨s, rfl, hd⟩
      · simp [requestParsing, hst, hd] at hmem
  · intro s hst hd
    simp [requestParsing, hst, hd]

/-- Claim C1 witness: a concrete snapshot with pending ingestion is rejected
with the error message, no request, and unchanged session state. -/
theorem requestParsing_only_when_ingestion_done_witness :
    (requestParsing
      { tenderId := some "t1"
        session := some
          { tenderId := "t1", status := TenderStatus.uploaded
            ragIngestion := { status := RagIngestionStatus.pending, lastError := none }
            parse := { outputUri := none, startedAt := none, completedAt := none, error := none }
            ragFiles := [] }
        errorMessage := none, parsingRequested := false, isProcessing := false }).2 = [] ∧
    (requestParsing
      { tenderId := some "t1"
        session := some
          { tenderId := "t1", status := TenderStatus.uploaded
            ragIngestion := { status := RagIngestionStatus.pending, lastError := none }
            parse := { outputUri := none, startedAt := none, completedAt := none, error := none }
            ragFiles := [] }
        errorMessage := none, parsingRequested := false, isProcessing := false }).1.errorMessage
      = some ingestionNotDoneMessage := by
  have h := (requestParsing_only_when_ingestion_done
    { tenderId := some "t1"
      session := some
        { tenderId := "t1", status := TenderStatus.uploaded
          ragIngestion := { status := RagIngestionStatus.pending, lastError := none }
          parse := { outputUri := none, startedAt := none, completedAt := none, error := none }
          ragFiles := [] }
      errorMessage := none, parsingRequested := false, isProcessing := false }).2
    { tenderId := "t1", status := TenderStatus.uploaded
      ragIngestion := { status := RagIngestionStatus.pending, lastError := none }
      parse := { outputUri := none, startedAt := none, completedAt := none, error := none }
      ragFiles := [] } rfl (by decide)
  exact ⟨h.1, h.2.1⟩

/-- Claim C3: a refreshed snapshot with status uploaded and ingestion done,
when no parsing request has yet been made in this page session (the
parsingRequested and isProcessing flags are both still false), makes the
session effect auto-request parsing, and that request issues the process
command without further operator input. -/
theorem auto_process_on_ingestion_done (st : PageState) (tid : String)
    (s : TenderSessionResponse)
    (htid : st.tenderId = some tid) (hs : st.session = some s)
    (hstatus : s.status = TenderStatus.uploaded)
    (hrag : s.ragIngestion.status = RagIngestionStatus.done)
    (hreq : st.parsingRequested = false) (hproc : st.isProcessing = false) :
    sessionEffectAction st = HookAction.autoRequestParsing ∧
    (requestParsing st).2 = [ApiEffect.triggerParsing tid] := by
  constructor
  · simp [sessionEffectAction, htid, hs, shouldPoll, hstatus, hrag, hreq, hproc]
  · simp [requestParsing, hs, hrag, startParsing, htid]

/-- Claim C3 witness: a concrete uploaded snapshot with done ingestion and no
prior request auto-starts processing. -/
theorem auto_process_on_ingestion_done_witness :
    sessionEffectAction
      { tenderId := some "t2"
        session := some
          { tenderId := "t2", status := TenderStatus.uploaded
            ragIngestion := { status := RagIngestionStatus.done, lastError := none }
            parse := { outputUri := none, startedAt := none, completedAt := none, error := none }
            ragFiles := [] }
        errorMessage := none, parsingRequested := false, isProcessing := false }
      = HookAction.autoRequestParsing := by
  exact (auto_process_on_ingestion_done
    { tenderId := some "t2"
      session := some
        { tenderId := "t2", status := TenderStatus.uploaded
          ragIngestion := { status := RagIngestionStatus.done, lastError := none }
          parse := { outputUri := none, startedAt := none, completedAt := none, error := none }
          ragFiles := [] }
      errorMessage := none, parsingRequested := false, isProcessing := false }
    "t2"
    { tenderId := "t2", status := TenderStatus.uploaded
      ragIngestion := { status := RagIngestionStatus.done, lastError := none }
      parse := { outputUri := none, startedAt := none, completedAt := none, error := none }
      ragFiles := [] }
    rfl rfl rfl rfl rfl rfl).1

/-- Claim C7: while a snapshot is non-terminal (status uploading or parsing,
or ingestion pending or running) the session effect schedules a refresh on a
fixed 5000 ms interval, inside the stated 5 to 8 second band; once the
snapshot is no longer in such a state no poll is scheduled. -/
theorem polling_band_and_stop (st : PageState) (tid : String)
    (s : TenderSessionResponse)
    (htid : st.tenderId = some tid) (hs : st.session = some s) :
    ((s.status = TenderStatus.parsing ∨ s.status = TenderStatus.uploading ∨
        s.ragIngestion.status = RagIngestionStatus.pending ∨
        s.ragIngestion.status = RagIngestionStatus.running) →
      sessionEffectAction st = HookAction.schedulePoll pollIntervalMs) ∧
    (¬ (s.status = TenderStatus.parsing ∨ s.status = TenderStatus.uploading ∨
        s.ragIngestion.status = RagIngestionStatus.pending ∨
        s.ragIngestion.status = RagIngestionStatus.running) →
      ∀ n, sessionEffectAction st ≠ HookAction.schedulePoll n) ∧
    5000 ≤ pollIntervalMs ∧ pollIntervalMs ≤ 8000 := by
  have hsp : shouldPoll s = true ↔
      (s.status = TenderStatus.parsing ∨ s.status = TenderStatus.uploading ∨
        s.ragIngestion.status = RagIngestionStatus.pending ∨
        s.ragIngestion.status = RagIngestionStatus.running) := by
    simp [shouldPoll, or_assoc]
  refine ⟨?_, ?_, by norm_num [pollIntervalMs], by norm_num [pollIntervalMs]⟩
  · intro h
    simp [sessionEffectAction, htid, hs, hsp.mpr h]
  · intro h n
    have hb : shouldPoll s = false := by
      rcases Bool.eq_false_or_eq_true (shouldPoll s) with hb | hb
      · exact absurd (hsp.mp hb) h
      · exact hb
    simp only [sessionEffectAction, htid, hs, hb]
    split
    · simp_all
    · split <;> simp

/-- Claim C7 witness: a parsing snapshot polls at 5000 ms (within the band)
and a parsed snapshot with done ingestion schedules no poll. -/
theorem polling_band_and_stop_witness :
    sessionEffectAction
      { tenderId := some "t3"
        session := some
          { tenderId := "t3", status := TenderStatus.parsing
            ragIngestion := { status := RagIngestionStatus.done, lastError := none }
            parse := { outputUri := none, startedAt := none, completedAt := none, error := none }
            ragFiles := [] }
        errorMessage := none, parsingRequested := true, isProcessing := false }
      = HookAction.schedulePoll 5000 ∧
    ∀ n, sessionEffectAction
      { tenderId := some "t3"
        session := some
          { tenderId := "t3", status := TenderStatus.parsed
            ragIngestion := { status := RagIngestionStatus.done, lastError := none }
            parse := { outputUri := some "gs://out", startedAt := none, completedAt := none, error := none }
            ragFiles := [] }
        errorMessage := none, parsingRequested := true, isProcessing := false }
      ≠ HookAction.schedulePoll n := by
  constructor
  · exact (polling_band_and_stop
      { tenderId := some "t3"
        session := some
          { tenderId := "t3", status := TenderStatus.parsing
            ragIngestion := { status := RagIngestionStatus.done, lastError := none }
            parse := { outputUri := none, startedAt := none, completedAt := none, error := none }
            ragFiles := [] }
        errorMessage := none, parsingRequested := true, isProcessing := false }
      "t3"
      { tenderId := "t3", status := TenderStatus.parsing
        ragIngestion := { status := RagIngestionStatus.done, lastError := none }
        parse := { outputUri := none, startedAt := none, completedAt := none, error := none }
        ragFiles := [] }
      rfl rfl).1 (Or.inl rfl)
  · exact (polling_band_and_stop
      { tenderId := some "t3"
        session := some
          { tenderId := "t3", status := TenderStatus.parsed
            ragIngestion := { status := RagIngestionStatus.done, lastError := none }
            parse := { outputUri := some "gs://out", startedAt := none, completedAt := none, error := none }
            ragFiles := [] }
        errorMessage := none, parsingRequested := true, isProcessing := false }
      "t3"
      { tenderId := "t3", status := TenderStatus.parsed
        ragIngestion := { status := RagIngestionStatus.done, lastError := none }
        parse := { outputUri := some "gs://out", startedAt := none, completedAt := none, error := none }
        ragFiles := [] }
      rfl rfl).2.1 (by decide)

/-- Claim C4: the retry-ingestion control is rendered for a snapshot exactly
when its ingestion status is failed, and invoking the handler with a tender id
issues exactly one retryRagIngestion request, followed by a session refresh
when that request succeeds. -/
theorem retry_control_iff_ingestion_failed :
    (∀ s : TenderSessionResponse,
      retryIngestionRendered (some s) = true ↔
        s.ragIngestion.status = RagIngestionStatus.failed) ∧
    (∀ tid : String,
      handleRetryIngestion (some tid) true =
        [ApiEffect.retryRagIngestion tid, ApiEffect.refreshSession] ∧
      handleRetryIngestion (some tid) false = [ApiEffect.retryRagIngestion tid]) := by
  constructor
  · intro s
    simp [retryIngestionRendered, ingestionStatusOf]
  · intro tid
    constructor <;> simp [handleRetryIngestion]

/-- Claim C4 witness: a failed-ingestion snapshot renders the control and the
handler issues the retry request then the refresh. -/
theorem retry_control_iff_ingestion_failed_witness :
    retryIngestionRendered (some
      { tenderId := "t4", status := TenderStatus.uploaded
        ragIngestion := { status := RagIngestionStatus.failed, lastError := some "boom" }
        parse := { outputUri := none, startedAt := none, completedAt := none, error := none }
        ragFiles := [] }) = true ∧
    handleRetryIngestion (some "t4") true =
      [ApiEffect.retryRagIngestion "t4", ApiEffect.refreshSession] := by
  constructor
  · exact (retry_control_iff_ingestion_failed.1
      { tenderId := "t4", status := TenderStatus.uploaded
        ragIngestion := { status := RagIngestionStatus.failed, lastError := some "boom" }
        parse := { outputUri := none, startedAt := none, completedAt := none, error := none }
        ragFiles := [] }).mpr rfl
  · exact (retry_control_iff_ingestion_failed.2 "t4").1

/-- Claim C6: the review page renders one block per result entry in results
order; an entry with an empty answers list gets the fallback text and every
other entry keeps its own answers. -/
theorem playbook_fallback_per_entry (results : List PlaybookResult) :
    (renderPlaybookResults results).length = results.length ∧
    (∀ i r, results.get? i = some r →
      ∃ b, (renderPlaybookResults results).get? i = some b ∧
        b.questionId = r.questionId ∧ b.question = r.question ∧
        (r.answers = [] →
          b.block = AnswerBlock.fallbackText noAnswerFallback) ∧
        (r.answers ≠ [] → b.block = AnswerBlock.answerList r.answers)) := by
  refine ⟨by simp [renderPlaybookResults], ?_⟩
  intro i r h
  have hmap : (renderPlaybookResults results).get? i =
      some { questionId := r.questionId, question := r.question,
             block :=
               if r.answers.length ≠ 0 then AnswerBlock.answerList r.answers
               else AnswerBlock.fallbackText noAnswerFallback } := by
    rw [List.get?_eq_getElem?] at h ⊢
    simp only [renderPlaybookResults, List.getElem?_map, h]
    rfl
  refine ⟨_, hmap, rfl, rfl, ?_, ?_⟩
  · intro ha
    simp [ha]
  · intro ha
    have hlen : r.answers.length ≠ 0 := by
      simpa [List.length_eq_zero] using ha
    simp [hlen]

/-- Claim C6 witness: a two-entry run where the first has answers and the
second has none renders the answers for the first and the fallback for the
second. -/
theorem playbook_fallback_per_entry_witness :
    ∃ b, (renderPlaybookResults
      [{ questionId := "q1", question := "Deadline?"
         answers := [{ text := "March 1", citations := [] }], documents := [] },
       { questionId := "q2", question := "Budget?"
         answers := [], documents := [] }]).get? 1 = some b ∧
      b.questionId = "q2" ∧
      b.block = AnswerBlock.fallbackText noAnswerFallback := by
  obtain ⟨b, hb, hq, _, hfb, _⟩ := (playbook_fallback_per_entry
    [{ questionId := "q1", question := "Deadline?"
       answers := [{ text := "March 1", citations := [] }], documents := [] },
     { questionId := "q2", question := "Budget?"
       answers := [], documents := [] }]).2 1
    { questionId := "q2", question := "Budget?"
      answers := [], documents := [] } rfl
  exact ⟨b, hb, hq, hfb rfl⟩

/-- One backend transition preserves the parsed-session invariant. -/
theorem ParsedInvariant_step (questions : List PlaybookQuestion)
    (st : BackendSession) (ev : BackendEvent)
    (h : ParsedInvariant questions st) :
    ParsedInvariant questions (backendStep questions st ev) := by
  intro hp
  cases ev with
  | uploadsComplete =>
      simp only [backendStep] at hp ⊢
      by_cases hc : st.status = TenderStatus.uploading
      · rw [if_pos hc] at hp
        simp at hp
      · rw [if_neg hc] at hp ⊢
        exact h hp
  | ingestionSucceeds =>
      simp only [backendStep] at hp ⊢
      by_cases hc : st.ragStatus = RagIngestionStatus.running
      · rw [if_pos hc] at hp ⊢
        exact h hp
      · rw [if_neg hc] at hp ⊢
        exact h hp
  | ingestionFails =>
      simp only [backendStep] at hp ⊢
      by_cases hc : st.ragStatus = RagIngestionStatus.running
      · rw [if_pos hc] at hp ⊢
        exact h hp
      · rw [if_neg hc] at hp ⊢
        exact h hp
  | retryIngestion =>
      simp only [backendStep] at hp ⊢
      by_cases hc : st.ragStatus = RagIngestionStatus.failed
      · rw [if_pos hc] at hp ⊢
        exact h hp
      · rw [if_neg hc] at hp ⊢
        exact h hp
  | processStart =>
      simp only [backendStep] at hp ⊢
      by_cases hc : st.ragStatus = RagIngestionStatus.done ∧
          (st.status = TenderStatus.uploaded ∨ st.status = TenderStatus.failed ∨
            st.status = TenderStatus.parsed)
      · rw [if_pos hc] at hp
        simp at hp
      · rw [if_neg hc] at hp ⊢
        exact h hp
  | processFinishOk uri oracle =>
      simp only [backendStep] at hp ⊢
      by_cases hc : st.status = TenderStatus.parsing
      · rw [if_pos hc] at hp ⊢
        exact ⟨uri, runPlaybook questions oracle, rfl, rfl, by simp [runPlaybook]⟩
      · rw [if_neg hc] at hp ⊢
        exact h hp
  | processFinishFail =>
      simp only [backendStep] at hp ⊢
      by_cases hc : st.status = TenderStatus.parsing
      · rw [if_pos hc] at hp
        simp at hp
      · rw [if_neg hc] at hp ⊢
        exact h hp

/-- Every backend session reachable from the initial state satisfies the
parsed-session invariant. -/
theorem ParsedInvariant_run (questions : List PlaybookQuestion)
    (events : List BackendEvent) :
    ParsedInvariant questions (backendRun questions events) := by
  suffices h : ∀ st : BackendSession, ParsedInvariant questions st →
      ParsedInvariant questions (events.foldl (backendStep questions) st) by
    refine h initialBackendSession ?_
    intro hp
    simp [initialBackendSession] at hp
  induction events with
  | nil => intro st h; exact h
  | cons e es ih =>
      intro st h
      exact ih _ (ParsedInvariant_step questions st e h)

/-- Claim C2: in every backend session reachable by the spec-modelled state
machine, status parsed implies a non-null outputUri resolving to a document
with exactly one results entry per configured playbook question; and the
review page effect fetches playbook results exactly when the snapshot has a
truthy parse.outputUri, clearing the held results otherwise. -/
theorem parsed_output_full_results (questions : List PlaybookQuestion)
    (events : List BackendEvent) (tid : String)
    (st : TenderSessionResponse) :
    ParsedInvariant questions (backendRun questions events) ∧
    (loadPlaybookEffect (some tid) (some st) =
        PlaybookLoadAction.fetchResults tid ↔ outputUriIsSet st.parse = true) ∧
    (outputUriIsSet st.parse = false →
      loadPlaybookEffect (some tid) (some st) =
        PlaybookLoadAction.clearResults) := by
  refine ⟨ParsedInvariant_run questions events, ?_, ?_⟩
  · constructor
    · intro h
      by_cases hset : outputUriIsSet st.parse
      · exact hset
      · simp [loadPlaybookEffect, hset] at h
    · intro h
      simp [loadPlaybookEffect, h]
  · intro h
    simp [loadPlaybookEffect, h]

/-- Claim C2 witness: a concrete run of one question reaching parsed has a
non-null outputUri and a one-entry artifact, and a snapshot carrying that
outputUri makes the review page fetch. -/
theorem parsed_output_full_results_witness :
    (∃ uri doc,
      (backendRun [{ questionId := "q1", question := "Deadline?" }]
        [BackendEvent.uploadsComplete, BackendEvent.ingestionSucceeds,
         BackendEvent.processStart,
         BackendEvent.processFinishOk "gs://bucket/playbook/2024.json"
           (fun _ => QuestionOutcome.generationError)]).outputUri = some uri ∧
      (backendRun [{ questionId := "q1", question := "Deadline?" }]
        [BackendEvent.uploadsComplete, BackendEvent.ingestionSucceeds,
         BackendEvent.processStart,
         BackendEvent.processFinishOk "gs://bucket/playbook/2024.json"
           (fun _ => QuestionOutcome.generationError)]).artifact = some doc ∧
      doc.length = 1) ∧
    loadPlaybookEffect (some "t5") (some
      { tenderId := "t5", status := TenderStatus.parsed
        ragIngestion := { status := RagIngestionStatus.done, lastError := none }
        parse := { outputUri := some "gs://bucket/playbook/2024.json"
                   startedAt := none, completedAt := none, error := none }
        ragFiles := [] }) = PlaybookLoadAction.fetchResults "t5" := by
  have h := parsed_output_full_results
    [{ questionId := "q1", question := "Deadline?" }]
    [BackendEvent.uploadsComplete, BackendEvent.ingestionSucceeds,
     BackendEvent.processStart,
     BackendEvent.processFinishOk "gs://bucket/playbook/2024.json"
       (fun _ => QuestionOutcome.generationError)]
    "t5"
    { tenderId := "t5", status := TenderStatus.parsed
      ragIngestion := { status := RagIngestionStatus.done, lastError := none }
      parse := { outputUri := some "gs://bucket/playbook/2024.json"
                 startedAt := none, completedAt := none, error := none }
      ragFiles := [] }
  exact ⟨h.1 rfl, h.2.1.mpr (by decide)⟩

/-- The upload loop decomposes per file: the final local list is the prior
records followed by one final record per candidate, and the request stream is
the concatenation of the per-file request streams. -/
theorem handleUploadBatch_decomposition (allowed : List String) (maxSize : Nat) :
    ∀ (files : List (CandidateFile × FileOutcomes))
      (locals : List LocalFileState),
      (handleUploadBatch allowed maxSize files locals).1 =
        locals ++ files.map (fun p => (processFile allowed maxSize p.1 p.2).1) ∧
      (handleUploadBatch allowed maxSize files locals).2 =
        (files.map (fun p => (processFile allowed maxSize p.1 p.2).2)).flatten := by
  intro files
  induction files with
  | nil =>
      intro locals
      simp [handleUploadBatch]
  | cons p rest ih =>
      intro locals
      obtain ⟨ih1, ih2⟩ := ih (locals ++ [(processFile allowed maxSize p.1 p.2).1])
      constructor
      · simp [handleUploadBatch, ih1]
      · simp [handleUploadBatch, ih2]

/-- Claim C5: when upload-init succeeded and a later step threw, the client
reports the failure through the completion callback with status failed and the
thrown message, and marks the local record failed; local upload records are
never deleted by the batch, every prior record survives in place. -/
theorem upload_failure_reported_not_deleted :
    (∀ (allowed : List String) (maxSize : Nat) (file : CandidateFile)
      (out : FileOutcomes) (ir : UploadInitResponse) (m : String),
      file.size ≤ maxSize → allowed.contains file.mimeType = true →
      out.init = Except.ok ir → out.upload = Except.error m →
      ApiEffect.completeUpload ir.fileId CompletionStatus.failed (some m) ∈
        (processFile allowed maxSize file out).2 ∧
      (processFile allowed maxSize file out).1.status = LocalFileStatus.failed ∧
      (processFile allowed maxSize file out).1.error =
        some (LocalFileError.requestFailed m)) ∧
    (∀ (allowed : List String) (maxSize : Nat) (file : CandidateFile)
      (out : FileOutcomes) (ir : UploadInitResponse) (m : String),
      file.size ≤ maxSize → allowed.contains file.mimeType = true →
      out.init = Except.ok ir → out.upload = Except.ok () →
      out.complete = Except.error m →
      ApiEffect.completeUpload ir.fileId CompletionStatus.failed (some m) ∈
        (processFile allowed maxSize file out).2 ∧
      (processFile allowed maxSize file out).1.status = LocalFileStatus.failed ∧
      (processFile allowed maxSize file out).1.error =
        some (LocalFileError.requestFailed m)) ∧
    (∀ (allowed : List String) (maxSize : Nat)
      (files : List (CandidateFile × FileOutcomes))
      (locals : List LocalFileState),
      (handleUploadBatch allowed maxSize files locals).1.length =
        locals.length + files.length ∧
      (handleUploadBatch allowed maxSize files locals).1.take locals.length =
        locals) := by
  refine ⟨?_, ?_, ?_⟩
  · intro allowed maxSize file out ir m hsize htype hinit hup
    have hmem : file.mimeType ∈ allowed := by simpa using htype
    simp [processFile, hsize, hmem, hinit, hup]
  · intro allowed maxSize file out ir m hsize htype hinit hup hcomp
    have hmem : file.mimeType ∈ allowed := by simpa using htype
    simp [processFile, hsize, hmem, hinit, hup, hcomp]
  · intro allowed maxSize files locals
    obtain ⟨h1, _⟩ := handleUploadBatch_decomposition allowed maxSize files locals
    constructor
    · simp [h1]
    · simp [h1]

/-- Claim C5 witness: a concrete file whose transfer throws after a successful
upload-init yields a failed completion callback carrying the message, and a
one-file batch preserves a pre-existing local record. -/
theorem upload_failure_reported_not_deleted_witness :
    (ApiEffect.completeUpload "f1" CompletionStatus.failed
        (some "Upload failed") ∈
      (processFile DEFAULT_ALLOWED_TYPES (5 * 1024 * 1024)
        { name := "tender.pdf", size := 123456, mimeType := "application/pdf" }
        { init := Except.ok { fileId := "f1", uploadUrl := "https://signed", storageUri := "gs://raw/tender.pdf" }
          upload := Except.error "Upload failed"
          complete := Except.ok () }).2) ∧
    (handleUploadBatch DEFAULT_ALLOWED_TYPES (5 * 1024 * 1024)
      [({ name := "tender.pdf", size := 123456, mimeType := "application/pdf" },
        { init := Except.ok { fileId := "f1", uploadUrl := "https://signed", storageUri := "gs://raw/tender.pdf" }
          upload := Except.error "Upload failed"
          complete := Except.ok () })]
      [{ name := "earlier.pdf", status := LocalFileStatus.uploaded
         progress := 100, error := none }]).1.take 1 =
      [{ name := "earlier.pdf", status := LocalFileStatus.uploaded
         progress := 100, error := none }] := by
  constructor
  · exact (upload_failure_reported_not_deleted.1 DEFAULT_ALLOWED_TYPES
      (5 * 1024 * 1024)
      { name := "tender.pdf", size := 123456, mimeType := "application/pdf" }
      { init := Except.ok { fileId := "f1", uploadUrl := "https://signed", storageUri := "gs://raw/tender.pdf" }
        upload := Except.error "Upload failed"
        complete := Except.ok () }
      { fileId := "f1", uploadUrl := "https://signed", storageUri := "gs://raw/tender.pdf" }
      "Upload failed" (by decide) (by decide) rfl rfl).1
  · exact (upload_failure_reported_not_deleted.2.2 DEFAULT_ALLOWED_TYPES
      (5 * 1024 * 1024)
      [({ name := "tender.pdf", size := 123456, mimeType := "application/pdf" },
        { init := Except.ok { fileId := "f1", uploadUrl := "https://signed", storageUri := "gs://raw/tender.pdf" }
          upload := Except.error "Upload failed"
          complete := Except.ok () })]
      [{ name := "earlier.pdf", status := LocalFileStatus.uploaded
         progress := 100, error := none }]).2

/-- Claim C9: a candidate failing the client-side size or type check is
recorded locally as failed with the matching explanatory error and contributes
no network request at all, while the batch still processes every other file;
the size limit defaults to 5 MiB and the type list to the PDF and DOCX
defaults when the backend supplies none. -/
theorem invalid_candidate_no_network :
    (∀ (allowed : List String) (maxSize : Nat) (file : CandidateFile)
      (out : FileOutcomes),
      (¬ file.size ≤ maxSize ∨ allowed.contains file.mimeType = false) →
      (processFile allowed maxSize file out).2 = [] ∧
      (processFile allowed maxSize file out).1.status = LocalFileStatus.failed) ∧
    (∀ (allowed : List String) (maxSize : Nat) (file : CandidateFile)
      (out : FileOutcomes),
      ¬ file.size ≤ maxSize →
      (processFile allowed maxSize file out).1.error =
        some LocalFileError.sizeLimitExceeded) ∧
    (∀ (allowed : List String) (maxSize : Nat) (file : CandidateFile)
      (out : FileOutcomes),
      file.size ≤ maxSize → allowed.contains file.mimeType = false →
      (processFile allowed maxSize file out).1.error =
        some LocalFileError.unsupportedType) ∧
    maxSizeBytes none = 5 * 1024 * 1024 ∧
    (∀ ul : UploadLimits, ul.maxFileSizeBytes = none →
      maxSizeBytes (some ul) = 5 * 1024 * 1024) ∧
    allowedMimeTypes none = DEFAULT_ALLOWED_TYPES ∧
    (∀ (allowed : List String) (maxSize : Nat)
      (files : List (CandidateFile × FileOutcomes))
      (locals : List LocalFileState),
      (handleUploadBatch allowed maxSize files locals).2 =
        (files.map (fun p => (processFile allowed maxSize p.1 p.2).2)).flatten ∧
      (handleUploadBatch allowed maxSize files locals).1 =
        locals ++ files.map (fun p => (processFile allowed maxSize p.1 p.2).1)) := by
  refine ⟨?_, ?_, ?_, rfl, ?_, rfl, ?_⟩
  · intro allowed maxSize file out hbad
    rcases hbad with hb | hb
    · simp [processFile, hb]
    · have hmem : file.mimeType ∉ allowed := by simpa using hb
      simp [processFile, hmem]
  · intro allowed maxSize file out hbad
    simp [processFile, hbad]
  · intro allowed maxSize file out hsize htype
    have hmem : file.mimeType ∉ allowed := by simpa using htype
    simp [processFile, hsize, hmem]
  · intro ul h
    simp [maxSizeBytes, h]
  · intro allowed maxSize files locals
    obtain ⟨h1, h2⟩ := handleUploadBatch_decomposition allowed maxSize files locals
    exact ⟨h2, h1⟩

/-- Claim C9 witness: an oversized PDF in a two-file batch is recorded failed
with the size error and issues no request, while the valid second file still
produces its upload-init request. -/
theorem invalid_candidate_no_network_witness :
    (processFile DEFAULT_ALLOWED_TYPES (5 * 1024 * 1024)
      { name := "big.pdf", size := 6 * 1024 * 1024, mimeType := "application/pdf" }
      { init := Except.ok { fileId := "f9", uploadUrl := "https://signed9", storageUri := "gs://raw/big.pdf" }
        upload := Except.ok (), complete := Except.ok () }).2 = [] ∧
    (processFile DEFAULT_ALLOWED_TYPES (5 * 1024 * 1024)
      { name := "big.pdf", size := 6 * 1024 * 1024, mimeType := "application/pdf" }
      { init := Except.ok { fileId := "f9", uploadUrl := "https://signed9", storageUri := "gs://raw/big.pdf" }
        upload := Except.ok (), complete := Except.ok () }).1.error =
      some LocalFileError.sizeLimitExceeded ∧
    maxSizeBytes none = 5 * 1024 * 1024 := by
  refine ⟨(invalid_candidate_no_network.1 DEFAULT_ALLOWED_TYPES (5 * 1024 * 1024)
      { name := "big.pdf", size := 6 * 1024 * 1024, mimeType := "application/pdf" }
      { init := Except.ok { fileId := "f9", uploadUrl := "https://signed9", storageUri := "gs://raw/big.pdf" }
        upload := Except.ok (), complete := Except.ok () }
      (Or.inl (by norm_num))).1,
    invalid_candidate_no_network.2.1 DEFAULT_ALLOWED_TYPES (5 * 1024 * 1024)
      { name := "big.pdf", size := 6 * 1024 * 1024, mimeType := "application/pdf" }
      { init := Except.ok { fileId := "f9", uploadUrl := "https://signed9", storageUri := "gs://raw/big.pdf" }
        upload := Except.ok (), complete := Except.ok () }
      (by norm_num),
    invalid_candidate_no_network.2.2.2.1⟩

/-- Helper: the head of dropWhile never satisfies the dropped predicate. -/
theorem head?_dropWhile_not_sat {α : Type} (p : α → Bool) :
    ∀ (l : List α) (c : α), (l.dropWhile p).head? = some c → p c = false := by
  intro l
  induction l with
  | nil =>
      intro c h
      simp [List.dropWhile] at h
  | cons a t ih =>
      intro c h
      rw [List.dropWhile_cons] at h
      by_cases hpa : p a = true
      · rw [if_pos hpa] at h
        exact ih c h
      · rw [if_neg hpa] at h
        simp at h
        rw [← h]
        simpa using hpa

/-- Helper: the stripped base URL never ends in a slash character. -/
theorem stripTrailingSlashes_no_trailing (s : String) (c : Char)
    (h : (stripTrailingSlashes s).data.getLast? = some c) :
    c ≠ Char.ofNat 47 := by
  have h2 : ((s.data.reverse.dropWhile
      (fun x => x = Char.ofNat 47)).head?) = some c := by
    simpa [stripTrailingSlashes, List.getLast?_reverse] using h
  have h3 := head?_dropWhile_not_sat (fun x => x = Char.ofNat 47)
    (s.data.reverse) c h2
  simpa using h3

/-- Modelled from the spec: the resolution order the claim spells out, written
as a cascade over the three candidates: the first candidate that is non-empty
after trimming wins, its trailing slashes are stripped, and a configuration
error is thrown when none qualifies. -/
def getBaseUrlSpec (env : ClientEnv) : Except String String :=
  if isNonEmptyCandidate env.tenderBackendUrl then
    Except.ok (stripTrailingSlashes (env.tenderBackendUrl.getD ""))
  else if isNonEmptyCandidate env.apiUrl then
    Except.ok (stripTrailingSlashes (env.apiUrl.getD ""))
  else if isNonEmptyCandidate env.windowOrigin then
    Except.ok (stripTrailingSlashes (env.windowOrigin.getD ""))
  else Except.error baseUrlNotConfiguredMessage

/-- Helper: the source getBaseUrl equals the spelled-out cascade. -/
theorem getBaseUrl_eq_spec (env : ClientEnv) :
    getBaseUrl env = getBaseUrlSpec env := by
  rcases env with ⟨a, b, c⟩
  unfold getBaseUrl getBaseUrlSpec baseUrlCandidates
  by_cases h1 : isNonEmptyCandidate a = true
  · rcases a with _ | s
    · simp [isNonEmptyCandidate] at h1
    · simp [List.find?, h1, Option.getD]
  · rw [Bool.not_eq_true] at h1
    by_cases h2 : isNonEmptyCandidate b = true
    · rcases b with _ | s
      · simp [isNonEmptyCandidate] at h2
      · simp [List.find?, h1, h2, Option.getD]
    · rw [Bool.not_eq_true] at h2
      by_cases h3 : isNonEmptyCandidate c = true
      · rcases c with _ | s
        · simp [isNonEmptyCandidate] at h3
        · simp [List.find?, h1, h2, h3, Option.getD]
      · rw [Bool.not_eq_true] at h3
        simp [List.find?, h1, h2, h3]

/-- Helper: once the cache holds a value every later call returns it. -/
theorem resolveCachedAux_hit (env : ClientEnv) (v : String) :
    ∀ n, resolveCachedAux env n (some v) =
      List.replicate n (Except.ok v) := by
  intro n
  induction n with
  | zero => rfl
  | succ k ih =>
      simp [resolveCachedAux, getBaseUrlCachedStep, ih, List.replicate]

/-- Helper: resolving through the cache is observationally equal to
recomputing per request. -/
theorem resolveCached_eq_perRequest (env : ClientEnv) (n : Nat) :
    resolveCached env n = resolvePerRequest env n := by
  unfold resolveCached resolvePerRequest
  induction n with
  | zero => rfl
  | succ k ih =>
      cases hg : getBaseUrl env with
      | ok v =>
          simp [resolveCachedAux, getBaseUrlCachedStep, hg,
            resolveCachedAux_hit, List.replicate]
      | error e =>
          simp [resolveCachedAux, getBaseUrlCachedStep, hg, List.replicate, ih]

/-- Claim C8: for a fixed environment the resolved backend base URL behaves as
a lazily-initialized read-only value: caching it is observationally equal to
recomputing it per request; its value is the first candidate that is non-empty
after trimming, in the order backend variable, API variable, window origin,
with trailing slashes stripped; and when no candidate qualifies every call
throws the configuration error. -/
theorem base_url_lazy_readonly (env : ClientEnv) :
    (∀ n, resolveCached env n = resolvePerRequest env n) ∧
    getBaseUrl env = getBaseUrlSpec env ∧
    (∀ v c, getBaseUrl env = Except.ok v →
      v.data.getLast? = some c → c ≠ Char.ofNat 47) ∧
    ((∀ cand ∈ baseUrlCandidates env, isNonEmptyCandidate cand = false) ↔
      getBaseUrl env = Except.error baseUrlNotConfiguredMessage) := by
  refine ⟨fun n => resolveCached_eq_perRequest env n, getBaseUrl_eq_spec env,
    ?_, ?_, ?_⟩
  · intro v c hok hlast
    unfold getBaseUrl at hok
    cases hf : (baseUrlCandidates env).find? isNonEmptyCandidate with
    | none =>
        rw [hf] at hok
        simp at hok
    | some o =>
        cases o with
        | none =>
            rw [hf] at hok
            simp at hok
        | some s =>
            rw [hf] at hok
            have hv : stripTrailingSlashes s = v := by
              simpa using hok
            rw [← hv] at hlast
            exact stripTrailingSlashes_no_trailing s c hlast
  · intro hall
    have hf : (baseUrlCandidates env).find? isNonEmptyCandidate = none := by
      rw [List.find?_eq_none]
      intro x hx
      simp [hall x hx]
    unfold getBaseUrl
    rw [hf]
  · intro herr cand hcand
    cases hf : (baseUrlCandidates env).find? isNonEmptyCandidate with
    | none =>
        rw [List.find?_eq_none] at hf
        simpa using hf cand hcand
    | some o =>
        have hpo := List.find?_some hf
        cases o with
        | none => simp [isNonEmptyCandidate] at hpo
        | some s =>
            unfold getBaseUrl at herr
            rw [hf] at herr
            simp at herr

/-- Claim C8 witness: a concrete environment with a trailing-slash backend URL
resolves identically across three cached calls, matches the cascade, and an
empty environment throws the configuration error. -/
theorem base_url_lazy_readonly_witness :
    resolveCached
      { tenderBackendUrl := some "https://api.example.com/"
        apiUrl := none, windowOrigin := some "https://app.example.com" } 3 =
      resolvePerRequest
        { tenderBackendUrl := some "https://api.example.com/"
          apiUrl := none, windowOrigin := some "https://app.example.com" } 3 ∧
    getBaseUrl
      { tenderBackendUrl := none, apiUrl := none, windowOrigin := none } =
      Except.error baseUrlNotConfiguredMessage := by
  constructor
  · exact (base_url_lazy_readonly
      { tenderBackendUrl := some "https://api.example.com/"
        apiUrl := none, windowOrigin := some "https://app.example.com" }).1 3
  · exact (base_url_lazy_readonly
      { tenderBackendUrl := none, apiUrl := none,
        windowOrigin := none }).2.2.2.mp (by decide)

/-- Claim C10: the shared request helper resolves with the parsed JSON body of
an ok response, resolves with undefined for status 204, and for a non-ok
response throws an Error whose message is the detail field when the body
parses as JSON containing one and the default status message otherwise; a
failed request always surfaces as such a thrown message, never as the raw
response. -/
theorem request_normalizes_errors (resp : HttpResponse) :
    (resp.ok = true → resp.status = 204 → request resp = Except.ok none) ∧
    (resp.ok = true → resp.status ≠ 204 → ∀ b, resp.body = some b →
      request resp = Except.ok (some b)) ∧
    (resp.ok = false → ∀ b d, resp.body = some b → b.detail = some d →
      request resp = Except.error d) ∧
    (resp.ok = false → resp.body = none →
      request resp = Except.error (requestFailedMessage resp.status)) ∧
    (resp.ok = false → ∀ b, resp.body = some b → b.detail = none →
      request resp = Except.error (requestFailedMessage resp.status)) ∧
    (resp.ok = false → ∃ msg, request resp = Except.error msg) := by
  refine ⟨?_, ?_, ?_, ?_, ?_, ?_⟩
  · intro hok h204
    simp [request, hok, h204]
  · intro hok h204 b hb
    simp [request, hok, h204, hb]
  · intro hok b d hb hd
    simp [request, hok, hb, hd]
  · intro hok hb
    simp [request, hok, hb]
  · intro hok b hb hd
    simp [request, hok, hb, hd]
  · intro hok
    rcases hb : resp.body with _ | b
    · exact ⟨requestFailedMessage resp.status, by simp [request, hok, hb]⟩
    · rcases hd : b.detail with _ | d
      · exact ⟨requestFailedMessage resp.status, by simp [request, hok, hb, hd]⟩
      · exact ⟨d, by simp [request, hok, hb, hd]⟩

/-- Claim C10 witness: a 204 resolves with undefined, an ok response returns
its body, a 422 with a detail field throws that detail, and a 500 without a
JSON body throws the default message. -/
theorem request_normalizes_errors_witness :
    request { ok := true, status := 204, body := none } = Except.ok none ∧
    request { ok := true, status := 200, body := some { detail := none } } =
      Except.ok (some { detail := none }) ∧
    request { ok := false, status := 422
              body := some { detail := some "Invalid tender id" } } =
      Except.error "Invalid tender id" ∧
    request { ok := false, status := 500, body := none } =
      Except.error (requestFailedMessage 500) := by
  refine ⟨(request_normalizes_errors
      { ok := true, status := 204, body := none }).1 rfl rfl,
    (request_normalizes_errors
      { ok := true, status := 200, body := some { detail := none } }).2.1
      rfl (by decide) { detail := none } rfl,
    (request_normalizes_errors
      { ok := false, status := 422
        body := some { detail := some "Invalid tender id" } }).2.2.1
      rfl { detail := some "Invalid tender id" } "Invalid tender id" rfl rfl,
    (request_normalizes_errors
      { ok := false, status := 500, body := none }).2.2.2.1 rfl rfl⟩

end TenderAutomation
